import Mathlib

/-!
Shallow embedding of the fastapi-medicine-delivery service
(src/models.py, src/db.py, src/database.py, src/main.py).

Timestamps are modelled as `Int` (only their ordering matters to the code),
ids as `Nat`.  The relational store is a pair of row lists; the storage
engine's auto-increment is modelled as `max existing id + 1`, which is what
the spec states and what the JSON-backed variant (src/database.py) computes.
Each HTTP handler becomes a function from its inputs and the store to a
response `Except ApiError α` paired with the store after the request.
-/

namespace MedDelivery

/- ## Data model: pydantic request/response models (src/models.py) -/

/-- `class Invoice(BaseModel)`: `number: str`, `emission_date: datetime`. -/
structure Invoice where
  number : String
  emission_date : Int
deriving DecidableEq

/-- `class Patient(BaseModel)`: `id: Optional[int] = None`, `name: str`,
`health_card_number: str`, `address: str`. -/
structure Patient where
  id : Option Nat
  name : String
  health_card_number : String
  address : String
deriving DecidableEq

/-- `class Delivery(BaseModel)`: `id: Optional[int] = None`, `patient_id: int`,
`invoice: Invoice`, `delivery_date: Optional[datetime] = None`,
`status: str = "Pending"`. -/
structure Delivery where
  id : Option Nat
  patient_id : Nat
  invoice : Invoice
  delivery_date : Option Int
  status : String
deriving DecidableEq

/-- Pydantic validation of a Delivery request body: fields with defaults may be
omitted (`id` defaults to `None`, `status` to `"Pending"`). -/
def Delivery.parse (id : Option Nat) (patient_id : Nat) (invoice : Invoice)
    (delivery_date : Option Int) (status : Option String) : Delivery :=
  { id := id, patient_id := patient_id, invoice := invoice,
    delivery_date := delivery_date, status := status.getD "Pending" }

/-- Modelled from the spec: `PatientUpdate` is imported by src/main.py from
models.py but is not defined under src/.  Per §4.2/§9 it is a partial-update
structure with one optional field per mutable Patient field; an absent or
null field means "leave unchanged" (src/main.py reads it with
`dict(exclude_unset=True, exclude_none=True)`, so absent and explicit null
coincide and both map to `none` here). -/
structure PatientUpdate where
  name : Option String
  health_card_number : Option String
  address : Option String
deriving DecidableEq

/-- Modelled from the spec: `DeliveryUpdate` is imported by src/main.py from
models.py but is not defined under src/.  Per §4.2/§9, one optional field per
mutable stored Delivery field. -/
structure DeliveryUpdate where
  patient_id : Option Nat
  invoice_number : Option String
  invoice_emission_date : Option Int
  delivery_date : Option Int
  status : Option String
deriving DecidableEq

/- ## Stored rows (src/db.py: PatientDB, DeliveryDB) and the store -/

/-- `class PatientDB(Base)`: columns `id` (pk), `name`, `health_card_number`
(unique), `address`. -/
structure PatientRow where
  id : Nat
  name : String
  health_card_number : String
  address : String
deriving DecidableEq

/-- `class DeliveryDB(Base)`: columns `id` (pk), `patient_id` (FK patients.id),
`invoice_number`, `invoice_emission_date`, `delivery_date` (nullable),
`status` (default "Pending"). -/
structure DeliveryRow where
  id : Nat
  patient_id : Nat
  invoice_number : String
  invoice_emission_date : Int
  delivery_date : Option Int
  status : String
deriving DecidableEq

/-- The relational store: the `patients` and `deliveries` tables, each kept in
insertion order. -/
structure Store where
  patients : List PatientRow
  deliveries : List DeliveryRow
deriving DecidableEq

/- ## Authentication gate (src/main.py: get_current_user, fake_users_db) -/

/-- A bearer token as the gate sees it: whether the payload parses, the `sub`
claim, the `exp` claim, and the key it was signed with. -/
structure Token where
  wellFormed : Bool
  sub : Option String
  exp : Int
  secret : String
deriving DecidableEq

/-- `jwt.decode(token, SECRET_KEY, algorithms=[ALGORITHM])` succeeds iff the
payload parses, the signature verifies against the server's key, and the
embedded expiry has not passed. -/
def jwtDecodeOk (secret_key : String) (now : Int) (t : Token) : Bool :=
  t.wellFormed && t.secret == secret_key && decide (now < t.exp)

/-- `fake_users_db`: the single seeded identity. -/
def fake_users_db : List String := ["admin"]

/-- `get_user(db, username)`. -/
def get_user (db : List String) (username : String) : Option String :=
  if db.contains username then some username else none

/-- Error taxonomy of the routes as HTTP surfaces it. -/
inductive ApiError
  | authError
  | notFound
  | integrityError
  | typeError
deriving DecidableEq

/-- HTTP status each error surfaces as. -/
def ApiError.statusCode : ApiError → Nat
  | ApiError.authError => 401
  | ApiError.notFound => 404
  | ApiError.integrityError => 500
  | ApiError.typeError => 500

/-- `get_current_user` (src/main.py): a missing Authorization header is
rejected by the `OAuth2PasswordBearer` dependency; otherwise decode the JWT,
read `sub`, and look the username up in `fake_users_db`; every failure is the
same 401 `credentials_exception`. -/
def get_current_user (secret_key : String) (now : Int) (tok : Option Token) :
    Except ApiError String :=
  match tok with
  | none => Except.error ApiError.authError
  | some t =>
    if jwtDecodeOk secret_key now t then
      match t.sub with
      | none => Except.error ApiError.authError
      | some username =>
        match get_user fake_users_db username with
        | none => Except.error ApiError.authError
        | some u => Except.ok u
    else Except.error ApiError.authError

/- ## SQLAlchemy declarative constructor (kwargs validation) -/

/-- Keys of `patient.dict()` in pydantic field order. -/
def Patient.dictKeys : List String :=
  ["id", "name", "health_card_number", "address"]

/-- Mapped attributes of `PatientDB`. -/
def PatientDB.attrs : List String :=
  ["id", "name", "health_card_number", "address"]

/-- Keys of `delivery.dict()` in pydantic field order (the nested `invoice`
model becomes one dict-valued key). -/
def Delivery.dictKeys : List String :=
  ["id", "patient_id", "invoice", "delivery_date", "status"]

/-- Mapped attributes of `DeliveryDB`: the columns plus the `patient`
relationship.  There is no `invoice` attribute — the invoice is flattened
into `invoice_number` and `invoice_emission_date`. -/
def DeliveryDB.attrs : List String :=
  ["id", "patient_id", "invoice_number", "invoice_emission_date",
   "delivery_date", "status", "patient"]

/-- SQLAlchemy's declarative constructor raises `TypeError` at the first
kwarg that is not an attribute of the mapped class. -/
def invalidCtorKwarg (attrs kwargKeys : List String) : Option String :=
  kwargKeys.find? (fun k => !attrs.contains k)

/- ## Patient routes (src/main.py) -/

/-- Auto-increment id for the patients table: one more than the largest id
present (`max existing id + 1`, as src/database.py also computes it). -/
def nextPatientId (s : Store) : Nat :=
  (s.patients.map (fun r => r.id)).foldr max 0 + 1

/-- The `PatientDB` row the create route inserts for input `p` under id `j`. -/
def patientRowOf (p : Patient) (j : Nat) : PatientRow :=
  { id := j, name := p.name, health_card_number := p.health_card_number,
    address := p.address }

/-- `POST /patients/` (`create_patient`): authenticate, build
`PatientDB(**patient.dict())` (all four keys are mapped attributes; a
client-supplied `id` is passed through to the INSERT, `id=None` lets the
engine auto-assign), commit — the UNIQUE constraint on `health_card_number`
and the primary key reject duplicates — and return the input with the
assigned id. -/
def create_patient (secret_key : String) (now : Int) (tok : Option Token)
    (patient : Patient) (s : Store) : Except ApiError Patient × Store :=
  match get_current_user secret_key now tok with
  | Except.error _ => (Except.error ApiError.authError, s)
  | Except.ok _ =>
    match invalidCtorKwarg PatientDB.attrs Patient.dictKeys with
    | some _ => (Except.error ApiError.typeError, s)
    | none =>
      let assignedId := match patient.id with
        | some j => j
        | none => nextPatientId s
      if s.patients.any (fun r => r.health_card_number == patient.health_card_number)
          || (patient.id.isSome && s.patients.any (fun r => r.id == assignedId)) then
        (Except.error ApiError.integrityError, s)
      else
        let row : PatientRow :=
          { id := assignedId, name := patient.name,
            health_card_number := patient.health_card_number,
            address := patient.address }
        (Except.ok { patient with id := some assignedId },
         { s with patients := s.patients ++ [row] })

/-- `get_db` (src/db.py) is declared with zero parameters. -/
def get_db_paramCount : Nat := 0

/-- The db dependency of `list_patients` (src/main.py) is
`Depends(lambda: next(get_db(SessionLocal())))`: it calls `get_db` with one
positional argument. -/
def list_patients_db_argCount : Nat := 1

/-- A Python call raises `TypeError` unless the positional argument count
matches the callee's parameter count. -/
def pyCallOk (paramCount argCount : Nat) : Bool :=
  paramCount == argCount

/-- `GET /patients/` (`list_patients`): no authentication dependency; its db
dependency calls the zero-argument `get_db` with one positional argument, so
dependency resolution raises `TypeError` (HTTP 500) on every request and the
body `db.query(PatientDB).all()` — the whole patients table, in the
otherwise-unreachable branch — is never run. -/
def list_patients (s : Store) : Except ApiError (List PatientRow) :=
  if pyCallOk get_db_paramCount list_patients_db_argCount then
    Except.ok s.patients
  else Except.error ApiError.typeError

/-- The `setattr` loop of `update_patient` over
`update_data.dict(exclude_unset=True, exclude_none=True)`: only the fields
present (non-`none`) in the partial are assigned. -/
def PatientUpdate.apply (u : PatientUpdate) (r : PatientRow) : PatientRow :=
  { r with
    name := u.name.getD r.name,
    health_card_number := u.health_card_number.getD r.health_card_number,
    address := u.address.getD r.address }

/-- Replace the first element satisfying `p` by `b`; the UPDATE emitted by
`db.commit()` after mutating the single ORM object found by
`.filter(...).first()`. -/
def replaceFirstP (l : List α) (p : α → Bool) (b : α) : List α :=
  match l with
  | [] => []
  | a :: l => if p a then b :: l else a :: replaceFirstP l p b

/-- `PUT /patients/{patient_id}` (`update_patient`): authenticate, look the
row up by id (404 if absent), assign the present fields, commit — the UNIQUE
constraint on `health_card_number` rejects a value already used by another
row — and return the refreshed row as a `Patient`. -/
def update_patient (secret_key : String) (now : Int) (tok : Option Token)
    (patient_id : Nat) (update_data : PatientUpdate) (s : Store) :
    Except ApiError Patient × Store :=
  match get_current_user secret_key now tok with
  | Except.error _ => (Except.error ApiError.authError, s)
  | Except.ok _ =>
    match s.patients.find? (fun r => r.id == patient_id) with
    | none => (Except.error ApiError.notFound, s)
    | some row =>
      let row' := update_data.apply row
      if (s.patients.eraseP (fun r => r.id == patient_id)).any
          (fun r => r.health_card_number == row'.health_card_number) then
        (Except.error ApiError.integrityError, s)
      else
        (Except.ok { id := some row'.id, name := row'.name,
                     health_card_number := row'.health_card_number,
                     address := row'.address },
         { s with patients := replaceFirstP s.patients (fun r => r.id == patient_id) row' })

/-- `DELETE /patients/{patient_id}` (`delete_patient`): authenticate, look the
row up by id (404 if absent), delete it, and return a confirmation message. -/
def delete_patient (secret_key : String) (now : Int) (tok : Option Token)
    (patient_id : Nat) (s : Store) : Except ApiError String × Store :=
  match get_current_user secret_key now tok with
  | Except.error _ => (Except.error ApiError.authError, s)
  | Except.ok _ =>
    match s.patients.find? (fun r => r.id == patient_id) with
    | none => (Except.error ApiError.notFound, s)
    | some _ =>
      (Except.ok ("Patient " ++ toString patient_id ++ " deleted successfully"),
       { s with patients := s.patients.eraseP (fun r => r.id == patient_id) })

/- ## Delivery routes (src/main.py) -/

/-- Auto-increment id for the deliveries table. -/
def nextDeliveryId (s : Store) : Nat :=
  (s.deliveries.map (fun r => r.id)).foldr max 0 + 1

/-- `POST /deliveries/` (`create_delivery`): authenticate, then build
`DeliveryDB(**delivery.dict())`.  The declarative constructor validates every
kwarg key against the mapped attributes; `delivery.dict()` carries the nested
`invoice` key, which is not an attribute of `DeliveryDB`, so the constructor
raises `TypeError` before any INSERT.  The accepting branch (unreachable for
`Delivery.dictKeys`, see `create_delivery` theorems) inserts the row the
route is evidently meant to produce, with the invoice flattened into its two
columns and `id=None` auto-assigned. -/
def create_delivery (secret_key : String) (now : Int) (tok : Option Token)
    (delivery : Delivery) (s : Store) : Except ApiError Delivery × Store :=
  match get_current_user secret_key now tok with
  | Except.error _ => (Except.error ApiError.authError, s)
  | Except.ok _ =>
    match invalidCtorKwarg DeliveryDB.attrs Delivery.dictKeys with
    | some _ => (Except.error ApiError.typeError, s)
    | none =>
      let assignedId := match delivery.id with
        | some j => j
        | none => nextDeliveryId s
      let row : DeliveryRow :=
        { id := assignedId, patient_id := delivery.patient_id,
          invoice_number := delivery.invoice.number,
          invoice_emission_date := delivery.invoice.emission_date,
          delivery_date := delivery.delivery_date,
          status := delivery.status }
      (Except.ok { delivery with id := some assignedId },
       { s with deliveries := s.deliveries ++ [row] })

/-- One optional query filter: `if param is not None: query = query.filter(...)`. -/
def optFilter (o : Option α) (f : α → DeliveryRow → Bool)
    (l : List DeliveryRow) : List DeliveryRow :=
  match o with
  | some v => l.filter (f v)
  | none => l

/-- SQL `column >= value` on a nullable DateTime column: a NULL column never
satisfies the comparison. -/
def sqlGe (col : Option Int) (v : Int) : Bool :=
  match col with
  | some d => decide (v ≤ d)
  | none => false

/-- SQL `column <= value` on a nullable DateTime column. -/
def sqlLe (col : Option Int) (v : Int) : Bool :=
  match col with
  | some d => decide (d ≤ v)
  | none => false

/-- `GET /deliveries/` (`list_deliveries`): authenticate, start from
`db.query(DeliveryDB)`, conditionally add one exact-match or range filter per
supplied query parameter (in source order), then apply
`.offset(skip).limit(limit).all()`.  `skip` and `limit` are query parameters
with defaults 0 and 10, modelled as `Option` with those defaults. -/
def list_deliveries (secret_key : String) (now : Int) (tok : Option Token)
    (s : Store) (patient_id : Option Nat) (status : Option String)
    (emission_date_from emission_date_to : Option Int)
    (delivery_date_from delivery_date_to : Option Int)
    (skip limit : Option Nat) : Except ApiError (List DeliveryRow) :=
  match get_current_user secret_key now tok with
  | Except.error _ => Except.error ApiError.authError
  | Except.ok _ =>
    let query := s.deliveries
    let query := optFilter patient_id (fun pid r => r.patient_id == pid) query
    let query := optFilter status (fun st r => r.status == st) query
    let query := optFilter emission_date_from
      (fun d r => decide (d ≤ r.invoice_emission_date)) query
    let query := optFilter emission_date_to
      (fun d r => decide (r.invoice_emission_date ≤ d)) query
    let query := optFilter delivery_date_from (fun d r => sqlGe r.delivery_date d) query
    let query := optFilter delivery_date_to (fun d r => sqlLe r.delivery_date d) query
    Except.ok ((query.drop (skip.getD 0)).take (limit.getD 10))

/-- The rows of a `list_deliveries` response (empty on error). -/
def listDeliveriesRows (secret_key : String) (now : Int) (tok : Option Token)
    (s : Store) (patient_id : Option Nat) (status : Option String)
    (emission_date_from emission_date_to : Option Int)
    (delivery_date_from delivery_date_to : Option Int)
    (skip limit : Option Nat) : List DeliveryRow :=
  match list_deliveries secret_key now tok s patient_id status
      emission_date_from emission_date_to delivery_date_from delivery_date_to
      skip limit with
  | Except.ok l => l
  | Except.error _ => []

/-- Modelled from the spec: the `setattr` loop of the delivery partial update
(the `PUT /deliveries/{id}` route is absent from src/main.py); §4.2: "applies
only the fields present in the request". -/
def DeliveryUpdate.apply (u : DeliveryUpdate) (r : DeliveryRow) : DeliveryRow :=
  { r with
    patient_id := u.patient_id.getD r.patient_id,
    invoice_number := u.invoice_number.getD r.invoice_number,
    invoice_emission_date := u.invoice_emission_date.getD r.invoice_emission_date,
    delivery_date := match u.delivery_date with
      | some d => some d
      | none => r.delivery_date,
    status := u.status.getD r.status }

/-- Modelled from the spec: `PUT /deliveries/{id}` is listed in §6 (bearer
token; partial Delivery fields; 404 on unknown id) but has no handler in
src/main.py.  Authenticate, look the row up by id (404 if absent), apply the
present fields (status transitions unconstrained, §3), commit — the FK
constraint rejects a `patient_id` not referencing an existing patient. -/
def update_delivery (secret_key : String) (now : Int) (tok : Option Token)
    (delivery_id : Nat) (update_data : DeliveryUpdate) (s : Store) :
    Except ApiError DeliveryRow × Store :=
  match get_current_user secret_key now tok with
  | Except.error _ => (Except.error ApiError.authError, s)
  | Except.ok _ =>
    match s.deliveries.find? (fun r => r.id == delivery_id) with
    | none => (Except.error ApiError.notFound, s)
    | some row =>
      let row' := update_data.apply row
      match update_data.patient_id with
      | some pid =>
        if s.patients.any (fun p => p.id == pid) then
          (Except.ok row',
           { s with deliveries := replaceFirstP s.deliveries (fun r => r.id == delivery_id) row' })
        else (Except.error ApiError.integrityError, s)
      | none =>
        (Except.ok row',
         { s with deliveries := replaceFirstP s.deliveries (fun r => r.id == delivery_id) row' })

/-- Modelled from the spec: `DELETE /deliveries/{id}` is listed in §6 (bearer
token; confirmation message; 404 on unknown id) but has no handler in
src/main.py. -/
def delete_delivery (secret_key : String) (now : Int) (tok : Option Token)
    (delivery_id : Nat) (s : Store) : Except ApiError String × Store :=
  match get_current_user secret_key now tok with
  | Except.error _ => (Except.error ApiError.authError, s)
  | Except.ok _ =>
    match s.deliveries.find? (fun r => r.id == delivery_id) with
    | none => (Except.error ApiError.notFound, s)
    | some _ =>
      (Except.ok ("Delivery " ++ toString delivery_id ++ " deleted successfully"),
       { s with deliveries := s.deliveries.eraseP (fun r => r.id == delivery_id) })

/- ## Spec-side definitions (for refinement statements) -/

/-- An omitted filter matches every record. -/
def optPred (o : Option α) (f : α → Bool) : Bool :=
  match o with
  | some v => f v
  | none => true

/-- The spec's filter contract for the delivery list (§4.2): the exact-match
conjunction of the supplied filters; an omitted filter matches all records;
date ranges are inclusive. -/
def deliveryMatches (patient_id : Option Nat) (status : Option String)
    (emission_date_from emission_date_to : Option Int)
    (delivery_date_from delivery_date_to : Option Int) (r : DeliveryRow) : Bool :=
  optPred patient_id (fun pid => r.patient_id == pid) &&
  optPred status (fun st => r.status == st) &&
  optPred emission_date_from (fun d => decide (d ≤ r.invoice_emission_date)) &&
  optPred emission_date_to (fun d => decide (r.invoice_emission_date ≤ d)) &&
  optPred delivery_date_from (fun d => sqlGe r.delivery_date d) &&
  optPred delivery_date_to (fun d => sqlLe r.delivery_date d)

/-- The four enumerated status values of §3. -/
def statusEnum : List String :=
  ["Pending", "In Progress", "Delivered", "Cancelled"]

/- ## Helper lemmas -/

lemma optFilter_eq_filter (o : Option α) (f : α → DeliveryRow → Bool)
    (l : List DeliveryRow) :
    optFilter o f l = l.filter (fun r => optPred o (fun v => f v r)) := by
  cases o <;> simp [optFilter, optPred]

lemma list_deliveries_eq_filter (secret_key : String) (now : Int)
    (tok : Option Token) (s : Store) (u : String)
    (patient_id : Option Nat) (status : Option String)
    (emission_date_from emission_date_to : Option Int)
    (delivery_date_from delivery_date_to : Option Int)
    (skip limit : Option Nat)
    (hu : get_current_user secret_key now tok = Except.ok u) :
    list_deliveries secret_key now tok s patient_id status
        emission_date_from emission_date_to delivery_date_from delivery_date_to
        skip limit =
      Except.ok (((s.deliveries.filter
          (deliveryMatches patient_id status emission_date_from emission_date_to
            delivery_date_from delivery_date_to)).drop (skip.getD 0)).take
        (limit.getD 10)) := by
  unfold list_deliveries
  rw [hu]
  simp only [optFilter_eq_filter, List.filter_filter]
  congr 3
  apply List.filter_congr
  intro r _
  unfold deliveryMatches
  cases h1 : optPred patient_id (fun pid => r.patient_id == pid) <;>
    cases h2 : optPred status (fun st => r.status == st) <;>
    cases h3 : optPred emission_date_from (fun d => decide (d ≤ r.invoice_emission_date)) <;>
    cases h4 : optPred emission_date_to (fun d => decide (r.invoice_emission_date ≤ d)) <;>
    cases h5 : optPred delivery_date_from (fun d => sqlGe r.delivery_date d) <;>
    cases h6 : optPred delivery_date_to (fun d => sqlLe r.delivery_date d) <;>
    simp [h1, h2, h3, h4, h5, h6]

lemma le_foldr_max (l : List Nat) (x : Nat) (hx : x ∈ l) : x ≤ l.foldr max 0 := by
  induction l with
  | nil => cases hx
  | cons a l ih =>
    rcases List.mem_cons.mp hx with h | h
    · subst h; exact Nat.le_max_left _ _
    · exact le_trans (ih h) (Nat.le_max_right _ _)

lemma find?_eraseP_eq_none {α : Type} (key : α → Nat) (l : List α) (pid : Nat)
    (h : (l.map key).Nodup) :
    (l.eraseP (fun r => key r == pid)).find? (fun r => key r == pid) = none := by
  induction l with
  | nil => simp [List.eraseP]
  | cons a l ih =>
    rw [List.map_cons, List.nodup_cons] at h
    by_cases ha : key a == pid
    · rw [List.eraseP_cons_of_pos (p := fun r => key r == pid) ha]
      rw [List.find?_eq_none]
      intro x hx hxp
      exact h.1 (List.mem_map.mpr ⟨x, hx,
        (beq_iff_eq.mp hxp).trans (beq_iff_eq.mp ha).symm⟩)
    · rw [List.eraseP_cons_of_neg (p := fun r => key r == pid) ha,
        List.find?_cons_of_neg (p := fun r => key r == pid) _ ha]
      exact ih h.2

lemma replaceFirstP_length (l : List α) (p : α → Bool) (b : α) :
    (replaceFirstP l p b).length = l.length := by
  induction l with
  | nil => rfl
  | cons a l ih =>
    by_cases hp : p a <;> simp [replaceFirstP, hp, ih]

lemma replaceFirstP_get? (l : List α) (p : α → Bool) (a b : α)
    (hfind : l.find? p = some a) (i : Nat) (r r' : α)
    (h1 : l.get? i = some r) (h2 : (replaceFirstP l p b).get? i = some r') :
    r' = r ∨ (r' = b ∧ r = a ∧ p a = true) := by
  induction l generalizing i with
  | nil => cases h1
  | cons x l ih =>
    by_cases hp : p x
    · rw [List.find?_cons_of_pos _ hp] at hfind
      obtain rfl := Option.some.inj hfind
      cases i with
      | zero =>
        have hr : r = x := by simpa using h1.symm
        have hb : (replaceFirstP (x :: l) p b).get? 0 = some b := by
          simp [replaceFirstP, hp]
        have hr' : r' = b := Option.some.inj ((hb.symm.trans h2).symm)
        exact Or.inr ⟨hr', hr, hp⟩
      | succ j =>
        have hth : (replaceFirstP (x :: l) p b).get? (j + 1) = l.get? j := by
          simp [replaceFirstP, hp]
        have h1' : l.get? j = some r := by simpa using h1
        rw [hth] at h2
        exact Or.inl (Option.some.inj (h2.symm.trans h1'))
    · rw [List.find?_cons_of_neg _ hp] at hfind
      cases i with
      | zero =>
        have hr : r = x := by simpa using h1.symm
        have hx : (replaceFirstP (x :: l) p b).get? 0 = some x := by
          simp [replaceFirstP, hp]
        have hr' : r' = x := Option.some.inj ((hx.symm.trans h2).symm)
        exact Or.inl (hr'.trans hr.symm)
      | succ j =>
        have hth : (replaceFirstP (x :: l) p b).get? (j + 1) =
            (replaceFirstP l p b).get? j := by
          simp [replaceFirstP, hp]
        have h1' : l.get? j = some r := by simpa using h1
        rw [hth] at h2
        exact ih hfind j h1' h2

lemma map_replaceFirstP (f : α → β) (l : List α) (p : α → Bool) (a b : α)
    (hfind : l.find? p = some a) (hpres : f b = f a) :
    (replaceFirstP l p b).map f = l.map f := by
  induction l with
  | nil => cases hfind
  | cons x l ih =>
    by_cases hp : p x
    · rw [List.find?_cons_of_pos _ hp] at hfind
      obtain rfl := Option.some.inj hfind
      simp [replaceFirstP, hp, hpres]
    · rw [List.find?_cons_of_neg _ hp] at hfind
      simp [replaceFirstP, hp, ih hfind]

lemma replaceFirstP_self (l : List α) (p : α → Bool) (a : α)
    (hfind : l.find? p = some a) : replaceFirstP l p a = l := by
  induction l with
  | nil => cases hfind
  | cons x l ih =>
    by_cases hp : p x
    · rw [List.find?_cons_of_pos _ hp] at hfind
      obtain rfl := Option.some.inj hfind
      simp [replaceFirstP, hp]
    · rw [List.find?_cons_of_neg _ hp] at hfind
      simp [replaceFirstP, hp, ih hfind]

/-- The failure cases the spec enumerates for a request token: no token at
all, a malformed payload, a signature under a different key, or a passed
expiry. -/
def badTokenP (secret_key : String) (now : Int) (tok : Option Token) : Prop :=
  tok = none ∨
    ∃ t, tok = some t ∧
      (t.wellFormed = false ∨ t.secret ≠ secret_key ∨ t.exp ≤ now)

lemma get_current_user_of_badToken (secret_key : String) (now : Int)
    (tok : Option Token) (h : badTokenP secret_key now tok) :
    get_current_user secret_key now tok = Except.error ApiError.authError := by
  rcases h with h | ⟨t, rfl, ht⟩
  · subst h; rfl
  · have hdec : jwtDecodeOk secret_key now t = false := by
      rcases ht with h1 | h1 | h1
      · simp [jwtDecodeOk, h1]
      · simp [jwtDecodeOk, h1]
      · have h2 : ¬(now < t.exp) := by omega
        simp [jwtDecodeOk, h2]
    simp [get_current_user, hdec]

/- ## Concrete fixtures (witnesses and counterexamples) -/

/-- A token signed with key "k", subject "admin", expiring at time 1. -/
def tok0 : Token :=
  { wellFormed := true, sub := some "admin", exp := 1, secret := "k" }

def anaRow : PatientRow :=
  { id := 1, name := "Ana", health_card_number := "123", address := "Rua X" }

def pat0 : Patient :=
  { id := none, name := "Ana", health_card_number := "123", address := "Rua X" }

def patU0 : PatientUpdate :=
  { name := none, health_card_number := none, address := none }

def inv0 : Invoice := { number := "N1", emission_date := 10 }

def del0 : Delivery :=
  { id := none, patient_id := 1, invoice := inv0, delivery_date := none,
    status := "Pending" }

def delU0 : DeliveryUpdate :=
  { patient_id := none, invoice_number := none, invoice_emission_date := none,
    delivery_date := none, status := none }

def emptyStore : Store := { patients := [], deliveries := [] }

def s0 : Store := { patients := [anaRow], deliveries := [] }

def dRow1 : DeliveryRow :=
  { id := 1, patient_id := 1, invoice_number := "N1", invoice_emission_date := 10,
    delivery_date := some 20, status := "Pending" }

def dRow2 : DeliveryRow :=
  { id := 2, patient_id := 1, invoice_number := "N2", invoice_emission_date := 11,
    delivery_date := none, status := "Delivered" }

def dRow3 : DeliveryRow :=
  { id := 3, patient_id := 2, invoice_number := "N3", invoice_emission_date := 12,
    delivery_date := some 25, status := "Pending" }

def s6 : Store := { patients := [anaRow], deliveries := [dRow1, dRow2, dRow3] }

def biaDup : Patient :=
  { id := none, name := "Bia", health_card_number := "123", address := "Rua Y" }

def carla : Patient :=
  { id := none, name := "Carla", health_card_number := "456", address := "Rua Z" }

def anaWithId7 : Patient :=
  { id := some 7, name := "Ana", health_card_number := "123", address := "Rua X" }

/- ## Claims -/

/-- C5: a request to any mutating route (create, update, delete, both
entities) presenting no token, a malformed token, a token signed with a
different secret, or an expired token fails with the auth error, which
surfaces as HTTP 401, and the store is unchanged by the request. -/
theorem mutating_routes_reject_bad_token (secret_key : String) (now : Int)
    (tok : Option Token) (hbad : badTokenP secret_key now tok)
    (p : Patient) (pu : PatientUpdate) (d : Delivery) (du : DeliveryUpdate)
    (pid did : Nat) (s : Store) :
    create_patient secret_key now tok p s = (Except.error ApiError.authError, s) ∧
    update_patient secret_key now tok pid pu s = (Except.error ApiError.authError, s) ∧
    delete_patient secret_key now tok pid s = (Except.error ApiError.authError, s) ∧
    create_delivery secret_key now tok d s = (Except.error ApiError.authError, s) ∧
    update_delivery secret_key now tok did du s = (Except.error ApiError.authError, s) ∧
    delete_delivery secret_key now tok did s = (Except.error ApiError.authError, s) ∧
    ApiError.authError.statusCode = 401 := by
  have h := get_current_user_of_badToken secret_key now tok hbad
  refine ⟨?_, ?_, ?_, ?_, ?_, ?_, rfl⟩ <;>
    simp [create_patient, update_patient, delete_patient, create_delivery,
      update_delivery, delete_delivery, h]

/-- Witness for C5 at a concrete input: a request with no token. -/
theorem mutating_routes_reject_bad_token_witness :
    badTokenP "k" 0 none ∧
    create_patient "k" 0 none pat0 s0 = (Except.error ApiError.authError, s0) ∧
    create_delivery "k" 0 none del0 s0 = (Except.error ApiError.authError, s0) :=
  ⟨Or.inl rfl,
   (mutating_routes_reject_bad_token "k" 0 none (Or.inl rfl)
     pat0 patU0 del0 delU0 1 1 s0).1,
   (mutating_routes_reject_bad_token "k" 0 none (Or.inl rfl)
     pat0 patU0 del0 delU0 1 1 s0).2.2.2.1⟩

/-- C9: authentication gating is asymmetric: `GET /patients/` has no
authentication dependency — its embedding takes no token at all, and it
never answers with the 401 auth error; instead every request fails with the
`TypeError` of its broken db dependency, token or not — while
`GET /deliveries/` rejects a bad bearer token with the 401 auth error and
succeeds with a valid one, and every mutating route rejects a bad token. -/
theorem auth_gating_asymmetry (secret_key : String) (now : Int)
    (tok : Option Token) (s : Store) (p : Patient) (pu : PatientUpdate)
    (d : Delivery) (du : DeliveryUpdate) (pid did : Nat)
    (patient_id : Option Nat) (status : Option String)
    (ef et df dt : Option Int) (skip limit : Option Nat) :
    (list_patients s = Except.error ApiError.typeError ∧
      list_patients s ≠ Except.error ApiError.authError) ∧
    (badTokenP secret_key now tok →
      list_deliveries secret_key now tok s patient_id status ef et df dt skip limit =
        Except.error ApiError.authError ∧
      (create_patient secret_key now tok p s).1 = Except.error ApiError.authError ∧
      (update_patient secret_key now tok pid pu s).1 = Except.error ApiError.authError ∧
      (delete_patient secret_key now tok pid s).1 = Except.error ApiError.authError ∧
      (create_delivery secret_key now tok d s).1 = Except.error ApiError.authError ∧
      (update_delivery secret_key now tok did du s).1 = Except.error ApiError.authError ∧
      (delete_delivery secret_key now tok did s).1 = Except.error ApiError.authError) ∧
    (∀ u, get_current_user secret_key now tok = Except.ok u →
      ∃ rows, list_deliveries secret_key now tok s patient_id status ef et df dt
        skip limit = Except.ok rows) := by
  refine ⟨⟨rfl, ?_⟩, ?_, ?_⟩
  · intro h
    exact ApiError.noConfusion (Except.error.inj h)
  · intro hbad
    have h := get_current_user_of_badToken secret_key now tok hbad
    refine ⟨?_, ?_, ?_, ?_, ?_, ?_, ?_⟩ <;>
      simp [create_patient, update_patient, delete_patient, create_delivery,
        update_delivery, delete_delivery, list_deliveries, h]
  · intro u hu
    exact ⟨_, list_deliveries_eq_filter secret_key now tok s u patient_id status
      ef et df dt skip limit hu⟩

/-- Witness for C9 at concrete inputs: no token is rejected with the auth
error on `GET /deliveries/`, a valid token is accepted there, and
`GET /patients/` consults no token — it fails with the dependency
`TypeError`, never the auth error. -/
theorem auth_gating_asymmetry_witness :
    badTokenP "k" 0 none ∧
    get_current_user "k" 0 (some tok0) = Except.ok "admin" ∧
    (list_patients s6 = Except.error ApiError.typeError ∧
      list_patients s6 ≠ Except.error ApiError.authError) ∧
    list_deliveries "k" 0 none s6 none none none none none none none none =
      Except.error ApiError.authError ∧
    (∃ rows, list_deliveries "k" 0 (some tok0) s6 none none none none none none
      none none = Except.ok rows) :=
  ⟨Or.inl rfl, by rfl,
   (auth_gating_asymmetry "k" 0 none s6 pat0 patU0 del0 delU0 1 1
     none none none none none none none none).1,
   ((auth_gating_asymmetry "k" 0 none s6 pat0 patU0 del0 delU0 1 1
     none none none none none none none none).2.1 (Or.inl rfl)).1,
   (auth_gating_asymmetry "k" 0 (some tok0) s6 pat0 patU0 del0 delU0 1 1
     none none none none none none none none).2.2 "admin" (by rfl)⟩

/-- C2: the round-trip claim fails on the code for deliveries: `create_delivery`
builds `DeliveryDB(**delivery.dict())`, and the dict's nested `invoice` key
is not a mapped attribute of `DeliveryDB`, so the declarative constructor
raises `TypeError` (HTTP 500) on every authenticated create; no delivery is
ever stored, so no fetch of the assigned id can return it. -/
theorem create_delivery_type_error (secret_key : String) (now : Int)
    (tok : Option Token) (u : String) (d : Delivery) (s : Store)
    (hu : get_current_user secret_key now tok = Except.ok u) :
    create_delivery secret_key now tok d s = (Except.error ApiError.typeError, s) ∧
    invalidCtorKwarg DeliveryDB.attrs Delivery.dictKeys = some "invoice" := by
  have hk : invalidCtorKwarg DeliveryDB.attrs Delivery.dictKeys = some "invoice" := by
    decide
  exact ⟨by simp [create_delivery, hu, hk], hk⟩

/-- Witness for C2's failing input: a well-formed delivery body with status
omitted (defaulted to "Pending" by validation), sent with a valid token. -/
theorem create_delivery_type_error_witness :
    get_current_user "k" 0 (some tok0) = Except.ok "admin" ∧
    Delivery.parse none 1 inv0 none none = del0 ∧
    create_delivery "k" 0 (some tok0) del0 s0 =
      (Except.error ApiError.typeError, s0) :=
  ⟨by rfl, by decide,
   (create_delivery_type_error "k" 0 (some tok0) "admin" del0 s0 (by rfl)).1⟩

/-- C6: an authenticated delivery list returns exactly the stored deliveries
satisfying the exact-match conjunction of the supplied filters (an omitted
filter matches every record; `deliveryMatches` is the spec-side contract),
paginated by offset `skip` (default 0) and `limit` (default 10), in
insertion order (the result is a contiguous selection of the filtered list
in store order). -/
theorem list_deliveries_filter_pagination (secret_key : String) (now : Int)
    (tok : Option Token) (s : Store) (u : String)
    (patient_id : Option Nat) (status : Option String)
    (ef et df dt : Option Int) (skip limit : Option Nat)
    (hu : get_current_user secret_key now tok = Except.ok u) :
    list_deliveries secret_key now tok s patient_id status ef et df dt skip limit =
      Except.ok (((s.deliveries.filter
        (deliveryMatches patient_id status ef et df dt)).drop
          (skip.getD 0)).take (limit.getD 10)) :=
  list_deliveries_eq_filter secret_key now tok s u patient_id status
    ef et df dt skip limit hu

/-- Witness for C6: the spec's own example — statuses {Pending, Delivered,
Pending}, filter `status="Pending"`, default pagination — returns exactly
the two Pending records in insertion order. -/
theorem list_deliveries_filter_pagination_witness :
    get_current_user "k" 0 (some tok0) = Except.ok "admin" ∧
    list_deliveries "k" 0 (some tok0) s6 none (some "Pending")
      none none none none none none = Except.ok [dRow1, dRow3] :=
  ⟨by rfl,
   (list_deliveries_filter_pagination "k" 0 (some tok0) s6 "admin"
     none (some "Pending") none none none none none none (by rfl)).trans
     (by rfl)⟩

lemma mem_listDeliveriesRows_of (secret_key : String) (now : Int)
    (tok : Option Token) (s : Store) (u : String) (r : DeliveryRow)
    (patient_id : Option Nat) (status : Option String) (ef et df dt : Option Int)
    (hu : get_current_user secret_key now tok = Except.ok u)
    (hr : r ∈ s.deliveries)
    (hmatch : deliveryMatches patient_id status ef et df dt r = true) :
    r ∈ listDeliveriesRows secret_key now tok s patient_id status ef et df dt
      (some 0) (some s.deliveries.length) := by
  unfold listDeliveriesRows
  rw [list_deliveries_eq_filter secret_key now tok s u patient_id status
    ef et df dt (some 0) (some s.deliveries.length) hu]
  simp only [Option.getD_some, List.drop_zero]
  rw [List.take_of_length_le (List.length_filter_le _ _)]
  exact List.mem_filter.mpr ⟨hr, hmatch⟩

/-- C10: the delivery-list date-range filters are inclusive at both
endpoints: a stored delivery whose invoice emission date equals the supplied
`emission_date_from` or `emission_date_to` bound is returned, and likewise a
delivery whose delivery date equals the supplied `delivery_date_from` or
`delivery_date_to` bound (pagination wide enough to show the whole table). -/
theorem date_range_bounds_inclusive (secret_key : String) (now : Int)
    (tok : Option Token) (s : Store) (u : String) (r : DeliveryRow)
    (hu : get_current_user secret_key now tok = Except.ok u)
    (hr : r ∈ s.deliveries) :
    r ∈ listDeliveriesRows secret_key now tok s none none
      (some r.invoice_emission_date) none none none
      (some 0) (some s.deliveries.length) ∧
    r ∈ listDeliveriesRows secret_key now tok s none none
      none (some r.invoice_emission_date) none none
      (some 0) (some s.deliveries.length) ∧
    (∀ d, r.delivery_date = some d →
      r ∈ listDeliveriesRows secret_key now tok s none none none none
        (some d) none (some 0) (some s.deliveries.length) ∧
      r ∈ listDeliveriesRows secret_key now tok s none none none none
        none (some d) (some 0) (some s.deliveries.length)) := by
  refine ⟨?_, ?_, ?_⟩
  · exact mem_listDeliveriesRows_of secret_key now tok s u r _ _ _ _ _ _ hu hr
      (by simp [deliveryMatches, optPred])
  · exact mem_listDeliveriesRows_of secret_key now tok s u r _ _ _ _ _ _ hu hr
      (by simp [deliveryMatches, optPred])
  · intro d hd
    exact ⟨mem_listDeliveriesRows_of secret_key now tok s u r _ _ _ _ _ _ hu hr
        (by simp [deliveryMatches, optPred, sqlGe, hd]),
      mem_listDeliveriesRows_of secret_key now tok s u r _ _ _ _ _ _ hu hr
        (by simp [deliveryMatches, optPred, sqlLe, hd])⟩

/-- Witness for C10: `dRow1` (emission date 10, delivery date 20) is returned
when either bound equals its own date exactly. -/
theorem date_range_bounds_inclusive_witness :
    get_current_user "k" 0 (some tok0) = Except.ok "admin" ∧
    dRow1 ∈ s6.deliveries ∧
    dRow1 ∈ listDeliveriesRows "k" 0 (some tok0) s6 none none (some 10) none
      none none (some 0) (some 3) ∧
    dRow1 ∈ listDeliveriesRows "k" 0 (some tok0) s6 none none none none
      (some 20) none (some 0) (some 3) :=
  ⟨by rfl, by decide,
   (date_range_bounds_inclusive "k" 0 (some tok0) s6 "admin" dRow1
     (by rfl) (by decide)).1,
   ((date_range_bounds_inclusive "k" 0 (some tok0) s6 "admin" dRow1
     (by rfl) (by decide)).2.2 20 (by decide)).1⟩

/-- C1 counterexample: the claim fails at concrete inputs in two independent
ways.  With a valid token and a valid non-colliding input (`carla`), the
create commits, but the following `GET /patients/` raises `TypeError` (its
db dependency calls the zero-argument `get_db` with one argument), so the
list never yields any sequence, let alone one with one more record.  And
with a valid input (`biaDup`) whose `health_card_number` equals a stored
patient's, the UNIQUE constraint rejects the INSERT and the table is
unchanged. -/
theorem create_then_list_counterexample :
    get_current_user "k" 0 (some tok0) = Except.ok "admin" ∧
    carla.id = none ∧
    (∀ r ∈ s0.patients, r.health_card_number ≠ carla.health_card_number) ∧
    list_patients (create_patient "k" 0 (some tok0) carla s0).2 =
      Except.error ApiError.typeError ∧
    (∀ l : List PatientRow,
      list_patients (create_patient "k" 0 (some tok0) carla s0).2 ≠
        Except.ok l) ∧
    biaDup.id = none ∧
    create_patient "k" 0 (some tok0) biaDup s0 =
      (Except.error ApiError.integrityError, s0) ∧
    (create_patient "k" 0 (some tok0) biaDup s0).2.patients.length ≠
      s0.patients.length + 1 := by
  refine ⟨by rfl, by decide, by decide, by rfl, ?_, by decide, by rfl, ?_⟩
  · intro l h
    have h2 : Except.error ApiError.typeError = Except.ok l := h
    exact Except.noConfusion h2
  · rw [show (create_patient "k" 0 (some tok0) biaDup s0).2 = s0 from rfl]
    decide

/-- C1 (amended): for every valid Patient input (no id supplied) whose
`health_card_number` does not collide with a stored patient's, an
authenticated create appends exactly one record to the patients table, and
its assigned id is strictly greater than every id present before the
creation; the list route itself never yields this (or any) sequence — its
broken db dependency makes every `GET /patients/` fail with `TypeError`. -/
theorem create_then_list_one_more (secret_key : String) (now : Int)
    (tok : Option Token) (u : String) (p : Patient) (s : Store)
    (hu : get_current_user secret_key now tok = Except.ok u)
    (hid : p.id = none)
    (hcard : ∀ r ∈ s.patients, r.health_card_number ≠ p.health_card_number) :
    (create_patient secret_key now tok p s).2.patients =
      s.patients ++ [patientRowOf p (nextPatientId s)] ∧
    (create_patient secret_key now tok p s).2.patients.length =
      s.patients.length + 1 ∧
    (∀ r ∈ s.patients, r.id < nextPatientId s) ∧
    (∀ s' : Store, list_patients s' = Except.error ApiError.typeError) := by
  have hk : invalidCtorKwarg PatientDB.attrs Patient.dictKeys = none := by decide
  have hany : s.patients.any
      (fun r => r.health_card_number == p.health_card_number) = false := by
    rw [List.any_eq_false]
    intro r hr
    simpa using hcard r hr
  refine ⟨?_, ?_, ?_, fun s' => rfl⟩
  · simp [create_patient, hu, hk, hid, hany, patientRowOf]
  · simp [create_patient, hu, hk, hid, hany, patientRowOf]
  · intro r hr
    have h := le_foldr_max (s.patients.map (fun r => r.id)) r.id
      (List.mem_map_of_mem _ hr)
    simp only [nextPatientId]
    omega

/-- Witness for C1's amended theorem: creating a non-colliding patient on a
one-patient store appends a record with id 2 > 1 to the table. -/
theorem create_then_list_one_more_witness :
    get_current_user "k" 0 (some tok0) = Except.ok "admin" ∧
    carla.id = none ∧
    (∀ r ∈ s0.patients, r.health_card_number ≠ carla.health_card_number) ∧
    ((create_patient "k" 0 (some tok0) carla s0).2.patients =
      s0.patients ++ [patientRowOf carla (nextPatientId s0)] ∧
     (create_patient "k" 0 (some tok0) carla s0).2.patients.length =
      s0.patients.length + 1 ∧
     (∀ r ∈ s0.patients, r.id < nextPatientId s0) ∧
     (∀ s' : Store, list_patients s' = Except.error ApiError.typeError)) :=
  ⟨by rfl, by decide, by decide,
   create_then_list_one_more "k" 0 (some tok0) "admin" carla s0
     (by rfl) (by decide) (by decide)⟩

/-- C7 counterexample: a client-supplied id in the request body does take
effect — on an empty store, `POST /patients/` with `id: 7` stores a record
with id 7, while the same body without an id stores id 1; the resulting
stores differ, refuting "any id value in the request body has no effect on
the stored record". -/
theorem client_supplied_id_counterexample :
    get_current_user "k" 0 (some tok0) = Except.ok "admin" ∧
    (create_patient "k" 0 (some tok0) anaWithId7 emptyStore).2.patients =
      [{ id := 7, name := "Ana", health_card_number := "123", address := "Rua X" }] ∧
    (create_patient "k" 0 (some tok0) pat0 emptyStore).2.patients =
      [{ id := 1, name := "Ana", health_card_number := "123", address := "Rua X" }] ∧
    (create_patient "k" 0 (some tok0) anaWithId7 emptyStore).2 ≠
      (create_patient "k" 0 (some tok0) pat0 emptyStore).2 :=
  ⟨by rfl, by rfl, by rfl, by decide⟩

/-- C7 (amended): the server assigns the id only when the request omits it
(`id=None` lets the engine auto-assign `max existing id + 1`, greater than
every stored id); a client-supplied id is inserted verbatim; and no update
ever changes any record's id. -/
theorem server_assigned_id (secret_key : String) (now : Int)
    (tok : Option Token) (u : String) (p : Patient) (s : Store)
    (pid : Nat) (pu : PatientUpdate)
    (hu : get_current_user secret_key now tok = Except.ok u)
    (hcard : ∀ r ∈ s.patients, r.health_card_number ≠ p.health_card_number) :
    (p.id = none →
      (create_patient secret_key now tok p s).2.patients =
        s.patients ++ [patientRowOf p (nextPatientId s)] ∧
      ∀ r ∈ s.patients, r.id < nextPatientId s) ∧
    (∀ j, p.id = some j → (∀ r ∈ s.patients, r.id ≠ j) →
      (create_patient secret_key now tok p s).2.patients =
        s.patients ++ [patientRowOf p j]) ∧
    ((update_patient secret_key now tok pid pu s).2.patients.map (fun r => r.id) =
      s.patients.map (fun r => r.id)) := by
  have hk : invalidCtorKwarg PatientDB.attrs Patient.dictKeys = none := by decide
  have hany : s.patients.any
      (fun r => r.health_card_number == p.health_card_number) = false := by
    rw [List.any_eq_false]
    intro r hr
    simpa using hcard r hr
  refine ⟨?_, ?_, ?_⟩
  · intro hid
    constructor
    · simp [create_patient, hu, hk, hid, hany, patientRowOf]
    · intro r hr
      have h := le_foldr_max (s.patients.map (fun r => r.id)) r.id
        (List.mem_map_of_mem _ hr)
      simp only [nextPatientId]
      omega
  · intro j hid hfree
    have hidany : s.patients.any (fun r => r.id == j) = false := by
      rw [List.any_eq_false]
      intro r hr
      simpa using hfree r hr
    simp [create_patient, hu, hk, hid, hany, hidany, patientRowOf]
  · unfold update_patient
    rw [hu]
    cases hfind : s.patients.find? (fun r => r.id == pid) with
    | none => rfl
    | some row =>
      simp only
      by_cases hcol : (s.patients.eraseP (fun r => r.id == pid)).any
          (fun r => r.health_card_number == (pu.apply row).health_card_number)
      · simp [hcol]
      · simp only [hcol, Bool.false_eq_true, if_false]
        exact map_replaceFirstP (fun r : PatientRow => r.id) s.patients
          (fun r => r.id == pid) row (pu.apply row) hfind rfl

/-- Witness for C7's amended theorem on a concrete store, input and update. -/
theorem server_assigned_id_witness :
    get_current_user "k" 0 (some tok0) = Except.ok "admin" ∧
    (∀ r ∈ s0.patients, r.health_card_number ≠ carla.health_card_number) ∧
    carla.id = none ∧
    ((create_patient "k" 0 (some tok0) carla s0).2.patients =
      s0.patients ++ [patientRowOf carla (nextPatientId s0)] ∧
      ∀ r ∈ s0.patients, r.id < nextPatientId s0) ∧
    ((update_patient "k" 0 (some tok0) 1
        { name := some "Ana Maria", health_card_number := none, address := none }
        s0).2.patients.map (fun r => r.id) =
      s0.patients.map (fun r => r.id)) :=
  ⟨by rfl, by decide, by decide,
   (server_assigned_id "k" 0 (some tok0) "admin" carla s0 1
     { name := some "Ana Maria", health_card_number := none, address := none }
     (by rfl) (by decide)).1 (by decide),
   (server_assigned_id "k" 0 (some tok0) "admin" carla s0 1
     { name := some "Ana Maria", health_card_number := none, address := none }
     (by rfl) (by decide)).2.2⟩

lemma update_patient_characterization (secret_key : String) (now : Int)
    (tok : Option Token) (u : String) (pid : Nat) (pu : PatientUpdate)
    (s : Store) (hu : get_current_user secret_key now tok = Except.ok u) :
    (update_patient secret_key now tok pid pu s).2 = s ∨
      ∃ row, s.patients.find? (fun r => r.id == pid) = some row ∧
        (update_patient secret_key now tok pid pu s).2 =
          { s with patients :=
              replaceFirstP s.patients (fun r => r.id == pid) (pu.apply row) } := by
  unfold update_patient
  rw [hu]
  cases hfind : s.patients.find? (fun r => r.id == pid) with
  | none => exact Or.inl rfl
  | some row =>
    by_cases hcol : (s.patients.eraseP (fun r => r.id == pid)).any
        (fun r => r.health_card_number == (pu.apply row).health_card_number) = true
    · exact Or.inl (by simp [hcol])
    · exact Or.inr ⟨row, rfl, by simp [hcol]⟩

/-- C3: partial update is a frame operation.  For every store, id and partial
request (with a valid token), the update changes at most the first record
with that id; absent (or explicitly null) fields of the partial are never
applied, so they are not cleared; every other record is untouched; record
ids never change; and the empty partial leaves the whole store unchanged. -/
theorem update_patient_frame (secret_key : String) (now : Int)
    (tok : Option Token) (u : String) (pid : Nat) (pu : PatientUpdate)
    (s : Store) (hu : get_current_user secret_key now tok = Except.ok u) :
    ((update_patient secret_key now tok pid pu s).2.patients.length =
      s.patients.length) ∧
    (∀ i r r', s.patients.get? i = some r →
      (update_patient secret_key now tok pid pu s).2.patients.get? i = some r' →
      r'.id = r.id ∧
      (pu.name = none → r'.name = r.name) ∧
      (pu.health_card_number = none →
        r'.health_card_number = r.health_card_number) ∧
      (pu.address = none → r'.address = r.address) ∧
      (r.id ≠ pid → r' = r)) ∧
    ((update_patient secret_key now tok pid
        { name := none, health_card_number := none, address := none } s).2 = s) := by
  have hchar := update_patient_characterization secret_key now tok u pid pu s hu
  refine ⟨?_, ?_, ?_⟩
  · rcases hchar with h | ⟨row, hfind, h⟩
    · rw [h]
    · rw [h]
      exact replaceFirstP_length s.patients _ _
  · intro i r r' h1 h2
    rcases hchar with h | ⟨row, hfind, h⟩
    · rw [h] at h2
      obtain rfl : r' = r := Option.some.inj (h2.symm.trans h1)
      exact ⟨rfl, fun _ => rfl, fun _ => rfl, fun _ => rfl, fun _ => rfl⟩
    · rw [h] at h2
      simp only at h2
      rcases replaceFirstP_get? s.patients (fun r => r.id == pid) row
          (pu.apply row) hfind i r r' h1 h2 with heq | ⟨hb, hra, hpa⟩
      · subst heq
        exact ⟨rfl, fun _ => rfl, fun _ => rfl, fun _ => rfl, fun _ => rfl⟩
      · subst hb; subst hra
        refine ⟨rfl, ?_, ?_, ?_, ?_⟩
        · intro hn; simp [PatientUpdate.apply, hn]
        · intro hn; simp [PatientUpdate.apply, hn]
        · intro hn; simp [PatientUpdate.apply, hn]
        · intro hne; exact absurd (by simpa using hpa) hne
  · rcases update_patient_characterization secret_key now tok u pid
        { name := none, health_card_number := none, address := none } s hu with
      h | ⟨row, hfind, h⟩
    · exact h
    · have happ : PatientUpdate.apply
          { name := none, health_card_number := none, address := none } row = row := rfl
      rw [happ] at h
      rw [replaceFirstP_self s.patients _ row hfind] at h
      exact h

/-- Witness for C3 on a concrete store and partial update. -/
theorem update_patient_frame_witness :
    get_current_user "k" 0 (some tok0) = Except.ok "admin" ∧
    (let upd := update_patient "k" 0 (some tok0) 1
      { name := some "Ana Maria", health_card_number := none, address := none } s0
     upd.2.patients.length = s0.patients.length ∧
     (∀ i r r', s0.patients.get? i = some r →
        upd.2.patients.get? i = some r' →
        r'.id = r.id ∧
        ((some "Ana Maria" : Option String) = none → r'.name = r.name) ∧
        ((none : Option String) = none →
          r'.health_card_number = r.health_card_number) ∧
        ((none : Option String) = none → r'.address = r.address) ∧
        (r.id ≠ 1 → r' = r))) ∧
    (update_patient "k" 0 (some tok0) 1
      { name := none, health_card_number := none, address := none } s0).2 = s0 := by
  have h := update_patient_frame "k" 0 (some tok0) "admin" 1
    { name := some "Ana Maria", health_card_number := none, address := none }
    s0 (by rfl)
  exact ⟨by rfl, ⟨h.1, h.2.1⟩, h.2.2⟩

/-- C4: with a valid token, update and delete on an id with no record fail
with the 404 not-found error and leave the store unchanged, for both
entities; and after a successful delete of an id (ids being unique, as the
primary key guarantees) any update or second delete of that id fails with
the 404 not-found error. -/
theorem missing_id_not_found (secret_key : String) (now : Int)
    (tok : Option Token) (u : String) (pid : Nat) (pu : PatientUpdate)
    (du : DeliveryUpdate) (s : Store)
    (hu : get_current_user secret_key now tok = Except.ok u) :
    ((∀ r ∈ s.patients, r.id ≠ pid) →
      update_patient secret_key now tok pid pu s =
        (Except.error ApiError.notFound, s) ∧
      delete_patient secret_key now tok pid s =
        (Except.error ApiError.notFound, s)) ∧
    ((∀ r ∈ s.deliveries, r.id ≠ pid) →
      update_delivery secret_key now tok pid du s =
        (Except.error ApiError.notFound, s) ∧
      delete_delivery secret_key now tok pid s =
        (Except.error ApiError.notFound, s)) ∧
    ((s.patients.map (fun r => r.id)).Nodup →
      ∀ msg s', delete_patient secret_key now tok pid s = (Except.ok msg, s') →
        update_patient secret_key now tok pid pu s' =
          (Except.error ApiError.notFound, s') ∧
        delete_patient secret_key now tok pid s' =
          (Except.error ApiError.notFound, s')) ∧
    ((s.deliveries.map (fun r => r.id)).Nodup →
      ∀ msg s', delete_delivery secret_key now tok pid s = (Except.ok msg, s') →
        update_delivery secret_key now tok pid du s' =
          (Except.error ApiError.notFound, s') ∧
        delete_delivery secret_key now tok pid s' =
          (Except.error ApiError.notFound, s')) := by
  refine ⟨?_, ?_, ?_, ?_⟩
  · intro h
    have hf : s.patients.find? (fun r => r.id == pid) = none :=
      List.find?_eq_none.mpr (fun x hx => by simpa using h x hx)
    exact ⟨by simp [update_patient, hu, hf], by simp [delete_patient, hu, hf]⟩
  · intro h
    have hf : s.deliveries.find? (fun r => r.id == pid) = none :=
      List.find?_eq_none.mpr (fun x hx => by simpa using h x hx)
    exact ⟨by simp [update_delivery, hu, hf], by simp [delete_delivery, hu, hf]⟩
  · intro hnd msg s' hdel
    unfold delete_patient at hdel
    rw [hu] at hdel
    cases hfind : s.patients.find? (fun r => r.id == pid) with
    | none => rw [hfind] at hdel; simp at hdel
    | some row =>
      rw [hfind] at hdel
      have hs' : s' = { s with patients := s.patients.eraseP (fun r => r.id == pid) } := by
        have h2 := congrArg Prod.snd hdel
        exact h2.symm
      subst hs'
      have hnone : (s.patients.eraseP (fun r => r.id == pid)).find?
          (fun r => r.id == pid) = none :=
        find?_eraseP_eq_none (fun r => r.id) s.patients pid hnd
      exact ⟨by simp [update_patient, hu, hnone],
        by simp [delete_patient, hu, hnone]⟩
  · intro hnd msg s' hdel
    unfold delete_delivery at hdel
    rw [hu] at hdel
    cases hfind : s.deliveries.find? (fun r => r.id == pid) with
    | none => rw [hfind] at hdel; simp at hdel
    | some row =>
      rw [hfind] at hdel
      have hs' : s' = { s with deliveries := s.deliveries.eraseP (fun r => r.id == pid) } := by
        have h2 := congrArg Prod.snd hdel
        exact h2.symm
      subst hs'
      have hnone : (s.deliveries.eraseP (fun r => r.id == pid)).find?
          (fun r => r.id == pid) = none :=
        find?_eraseP_eq_none (fun r => r.id) s.deliveries pid hnd
      exact ⟨by simp [update_delivery, hu, hnone],
        by simp [delete_delivery, hu, hnone]⟩

/-- Witness for C4: on a one-patient store, id 2 is absent (update and delete
404 and change nothing), and deleting id 1 makes a following update and a
second delete of id 1 fail with 404. -/
theorem missing_id_not_found_witness :
    get_current_user "k" 0 (some tok0) = Except.ok "admin" ∧
    (∀ r ∈ s0.patients, r.id ≠ 2) ∧
    (update_patient "k" 0 (some tok0) 2 patU0 s0 =
      (Except.error ApiError.notFound, s0) ∧
     delete_patient "k" 0 (some tok0) 2 s0 =
      (Except.error ApiError.notFound, s0)) ∧
    (s0.patients.map (fun r => r.id)).Nodup ∧
    (update_patient "k" 0 (some tok0) 1 patU0 emptyStore =
      (Except.error ApiError.notFound, emptyStore) ∧
     delete_patient "k" 0 (some tok0) 1 emptyStore =
      (Except.error ApiError.notFound, emptyStore)) := by
  have h := missing_id_not_found "k" 0 (some tok0) "admin" 2 patU0 delU0 s0 (by rfl)
  have h1 := (missing_id_not_found "k" 0 (some tok0) "admin" 1 patU0 delU0 s0
    (by rfl)).2.2.1 (by decide) "Patient 1 deleted successfully"
    emptyStore (by rfl)
  exact ⟨by rfl, by decide, h.1 (by decide), by decide, h1⟩

def s8 : Store := { patients := [anaRow], deliveries := [dRow1] }

def bogusU : DeliveryUpdate :=
  { patient_id := none, invoice_number := none, invoice_emission_date := none,
    delivery_date := none, status := some "Bogus" }

/-- C8 counterexample: no enumerated-value constraint on `status` exists in
the code (the pydantic field is a plain `str`, the column a plain `String`),
so from a store whose only delivery has status "Pending", an authenticated
partial update storing status "Bogus" succeeds and the stored status leaves
the four-value enumeration. -/
theorem status_enum_counterexample :
    get_current_user "k" 0 (some tok0) = Except.ok "admin" ∧
    (∀ r ∈ s8.deliveries, r.status ∈ statusEnum) ∧
    (update_delivery "k" 0 (some tok0) 1 bogusU s8).1 =
      Except.ok { dRow1 with status := "Bogus" } ∧
    ((update_delivery "k" 0 (some tok0) 1 bogusU s8).2.deliveries.all
      (fun r => statusEnum.contains r.status)) = false :=
  ⟨by rfl, by decide, by rfl, by rfl⟩

/-- C8 (amended): a Delivery validated with `status` omitted carries the
default status "Pending", a supplied status is taken verbatim, and no
enumeration is enforced: an update whose partial carries any status string
stores that string unchanged. -/
theorem status_default_pending (id : Option Nat) (pid : Nat) (inv : Invoice)
    (dd : Option Int) (secret_key : String) (now : Int) (tok : Option Token)
    (u : String) (did : Nat) (v : String) (du : DeliveryUpdate) (s : Store)
    (hu : get_current_user secret_key now tok = Except.ok u)
    (hv : du.status = some v) :
    (Delivery.parse id pid inv dd none).status = "Pending" ∧
    (∀ st, (Delivery.parse id pid inv dd (some st)).status = st) ∧
    (∀ row', (update_delivery secret_key now tok did du s).1 = Except.ok row' →
      row'.status = v) := by
  refine ⟨rfl, fun st => rfl, ?_⟩
  intro row' h
  unfold update_delivery at h
  rw [hu] at h
  cases hfind : s.deliveries.find? (fun r => r.id == did) with
  | none => rw [hfind] at h; simp at h
  | some row =>
    rw [hfind] at h
    cases hpid : du.patient_id with
    | none =>
      rw [hpid] at h
      simp only at h
      obtain rfl := Except.ok.inj h
      simp [DeliveryUpdate.apply, hv]
    | some pv =>
      rw [hpid] at h
      by_cases hex : (s.patients.any (fun p => p.id == pv)) = true
      · simp only [hex, if_true] at h
        obtain rfl := Except.ok.inj h
        simp [DeliveryUpdate.apply, hv]
      · simp only [hex] at h
        simp at h

/-- Witness for C8's amended theorem at a concrete input. -/
theorem status_default_pending_witness :
    get_current_user "k" 0 (some tok0) = Except.ok "admin" ∧
    bogusU.status = some "Bogus" ∧
    (Delivery.parse none 1 inv0 none none).status = "Pending" ∧
    (∀ row', (update_delivery "k" 0 (some tok0) 1 bogusU s8).1 =
      Except.ok row' → row'.status = "Bogus") := by
  have h := status_default_pending none 1 inv0 none "k" 0 (some tok0) "admin"
    1 "Bogus" bogusU s8 (by rfl) (by rfl)
  exact ⟨by rfl, by rfl, h.1, h.2.2⟩

end MedDelivery
